import Mathlib

/-!
Verification of the ARM7 CPU core of NanoboyAdvance
(src/core/arm/arm.inl): condition evaluation, interrupt entry,
privilege-mode register banking and instruction dispatch.

The enum and state declarations live in the core's header, which is
described in the specification (§3): a 16-entry register file with `r15`
as the program counter, a status register with flag bits (negative, zero,
carry, overflow, interrupt-mask, Thumb width, 5-bit mode), six register
banks of 7 slots each (slot 0 = banked r13, slot 1 = banked r14,
slots 2..6 = the FIQ-only shadow of r8..r12), a saved-status slot per
bank, a pointer to the current saved-status slot, and a 2-slot prefetch
pipeline.  Register values are 32-bit machine words, modelled as `Nat`
with explicit `% 2^32` where the C code's `uint32_t` arithmetic can wrap.
-/

/-- The seven privilege modes (spec §3: unprivileged, system,
fast-interrupt, interrupt, supervisor, abort, undefined). -/
inductive Mode where
  | usr
  | fiq
  | irq
  | svc
  | abt
  | und
  | sys
deriving DecidableEq, Repr

/-- The six register banks: `none` (shared by unprivileged/system) and one
private bank per exception mode. -/
inductive Bank where
  | none
  | fiq
  | irq
  | svc
  | abt
  | und
deriving DecidableEq, Repr

/-- The 16 ARM condition codes, in the order of the `Condition` enum. -/
inductive Condition where
  | eq
  | ne
  | cs
  | cc
  | mi
  | pl
  | vs
  | vc
  | hi
  | ls
  | ge
  | lt
  | gt
  | le
  | al
  | nv
deriving DecidableEq, Repr

/-- Memory access classification passed to the bus (`ACCESS_SEQ` /
`ACCESS_NSEQ`). -/
inductive Access where
  | seq
  | nseq
deriving DecidableEq, Repr

/-- The status register's discrete bit fields (`cpsr.f`): negative, zero,
carry, overflow, interrupt mask, Thumb width and current mode. -/
structure Psr where
  n : Bool
  z : Bool
  c : Bool
  v : Bool
  mask_irq : Bool
  thumb : Bool
  mode : Mode
deriving DecidableEq, Repr

/-- The 16-entry general register file `state.reg[0..15]`; `r15` is the
program counter. -/
structure Regs where
  r0 : Nat
  r1 : Nat
  r2 : Nat
  r3 : Nat
  r4 : Nat
  r5 : Nat
  r6 : Nat
  r7 : Nat
  r8 : Nat
  r9 : Nat
  r10 : Nat
  r11 : Nat
  r12 : Nat
  r13 : Nat
  r14 : Nat
  r15 : Nat
deriving DecidableEq, Repr

/-- One row of `state.bank`: slot 0 (`BANK_R13`), slot 1 (`BANK_R14`) and
slots `2+i` for `i < 5` holding the FIQ shadow of `r8..r12`. -/
structure BankRow where
  s13 : Nat
  s14 : Nat
  g8 : Nat
  g9 : Nat
  g10 : Nat
  g11 : Nat
  g12 : Nat
deriving DecidableEq, Repr

/-- The processor state owned by the core: register file, bank storage,
saved-status slots, the current saved-status pointer (`p_spsr`, modelled
as the bank it points into), the status register and the two pipeline
slots. -/
structure CpuState where
  regs : Regs
  bank : Bank → BankRow
  spsr : Bank → Psr
  p_spsr : Bank
  cpsr : Psr
  pipe0 : Nat
  pipe1 : Nat

/-- `ARM7::ModeToBank`: map a privilege mode to its register bank.
Unprivileged and system share `Bank.none`; the source's `default` case
(for raw mode-field values outside the enum) also yields `BANK_NONE` and
has no counterpart here because `Mode` carries exactly the enum values. -/
def modeToBank : Mode → Bank
  | Mode.usr => Bank.none
  | Mode.sys => Bank.none
  | Mode.fiq => Bank.fiq
  | Mode.irq => Bank.irq
  | Mode.svc => Bank.svc
  | Mode.abt => Bank.abt
  | Mode.und => Bank.und

/-- `ARM7::CheckCondition`: evaluate a condition code against the current
flags, with the early `COND_AL` fast path of the source kept. -/
def checkCondition (condition : Condition) (cpsr : Psr) : Bool :=
  if condition = Condition.al then
    true
  else
    match condition with
    | Condition.eq => cpsr.z
    | Condition.ne => !cpsr.z
    | Condition.cs => cpsr.c
    | Condition.cc => !cpsr.c
    | Condition.mi => cpsr.n
    | Condition.pl => !cpsr.n
    | Condition.vs => cpsr.v
    | Condition.vc => !cpsr.v
    | Condition.hi => cpsr.c && !cpsr.z
    | Condition.ls => !cpsr.c || cpsr.z
    | Condition.ge => cpsr.n == cpsr.v
    | Condition.lt => cpsr.n != cpsr.v
    | Condition.gt => !(cpsr.z || (cpsr.n != cpsr.v))
    | Condition.le => cpsr.z || (cpsr.n != cpsr.v)
    | Condition.al => true
    | Condition.nv => false

/-- The canonical ARM condition truth table exactly as the claim words it:
EQ=z, NE=!z, CS=c, CC=!c, MI=n, PL=!n, VS=v, VC=!v, HI=c&&!z, LS=!c||z,
GE=n==v, LT=n!=v, GT=!z&&n==v, LE=z||n!=v, AL=true, NV=false. -/
def condTable (condition : Condition) (n z c v : Bool) : Bool :=
  match condition with
  | Condition.eq => z
  | Condition.ne => !z
  | Condition.cs => c
  | Condition.cc => !c
  | Condition.mi => n
  | Condition.pl => !n
  | Condition.vs => v
  | Condition.vc => !v
  | Condition.hi => c && !z
  | Condition.ls => !c || z
  | Condition.ge => n == v
  | Condition.lt => n != v
  | Condition.gt => !z && (n == v)
  | Condition.le => z || (n != v)
  | Condition.al => true
  | Condition.nv => false

/-- `ARM7::SwitchMode`: perform the bank swap on a privilege-mode
transition.  A no-op when the new mode equals the current one; after
updating the mode field, a further no-op when both modes resolve to the
same bank.  When the FIQ bank is entered or left, the shadow copy of
`r8..r12` is saved into the bank being left (`bank[old_gpr_bank][2+i]`)
and restored from the bank being entered; then `r13`/`r14` are saved into
the old bank's slots 0/1 and loaded from the new bank's, and `p_spsr` is
repointed at the new bank's saved-status slot. -/
def switchMode (s : CpuState) (new_mode : Mode) : CpuState :=
  let old_mode := s.cpsr.mode
  if new_mode = old_mode then
    s
  else
    let new_bank := modeToBank new_mode
    let old_bank := modeToBank old_mode
    let s1 : CpuState := { s with cpsr := { s.cpsr with mode := new_mode } }
    if new_bank = old_bank then
      s1
    else
      let s2 : CpuState :=
        if new_bank = Bank.fiq ∨ old_bank = Bank.fiq then
          let old_gpr_bank := if old_bank = Bank.fiq then Bank.fiq else Bank.none
          let new_gpr_bank := if new_bank = Bank.fiq then Bank.fiq else Bank.none
          let bank2 := Function.update s1.bank old_gpr_bank
            { s1.bank old_gpr_bank with
                g8 := s1.regs.r8, g9 := s1.regs.r9, g10 := s1.regs.r10,
                g11 := s1.regs.r11, g12 := s1.regs.r12 }
          let row := bank2 new_gpr_bank
          { s1 with
              bank := bank2,
              regs := { s1.regs with
                          r8 := row.g8, r9 := row.g9, r10 := row.g10,
                          r11 := row.g11, r12 := row.g12 } }
        else
          s1
      let bank3 := Function.update s2.bank old_bank
        { s2.bank old_bank with s13 := s2.regs.r13, s14 := s2.regs.r14 }
      let row := bank3 new_bank
      { s2 with
          bank := bank3,
          regs := { s2.regs with r13 := row.s13, r14 := row.s14 },
          p_spsr := new_bank }

/-- `ARM7::RefillA`: ARM-width pipeline refill through the bus interface
(`readWord`), first access non-sequential, second sequential; the program
counter advances by 8 in 32-bit arithmetic. -/
def refillA (readWord : Nat → Access → Nat) (s : CpuState) : CpuState :=
  let s1 : CpuState := { s with
    pipe0 := readWord (s.regs.r15 + 0) Access.nseq,
    pipe1 := readWord ((s.regs.r15 + 4) % 2 ^ 32) Access.seq }
  { s1 with regs := { s1.regs with r15 := (s1.regs.r15 + 8) % 2 ^ 32 } }

/-- `ARM7::RefillT`: Thumb-width pipeline refill; the program counter
advances by 4 in 32-bit arithmetic. -/
def refillT (readHalf : Nat → Access → Nat) (s : CpuState) : CpuState :=
  let s1 : CpuState := { s with
    pipe0 := readHalf (s.regs.r15 + 0) Access.nseq,
    pipe1 := readHalf ((s.regs.r15 + 2) % 2 ^ 32) Access.seq }
  { s1 with regs := { s1.regs with r15 := (s1.regs.r15 + 4) % 2 ^ 32 } }

/-- `ARM7::SignalIrq`: interrupt entry.  A no-op when the interrupt mask
is set; otherwise the return address (`r15` in Thumb, `r15 - 4` in ARM,
both in 32-bit arithmetic) is stored into the IRQ bank's `r14` slot, the
status register is copied into the IRQ bank's saved-status slot, the mode
is switched to IRQ, the Thumb width flag is cleared (already clear in the
ARM branch) and the mask is set; finally `r15` is redirected to the
vector `0x18` and an ARM-width refill is performed. -/
def signalIrq (readWord : Nat → Access → Nat) (s : CpuState) : CpuState :=
  if s.cpsr.mask_irq then
    s
  else
    let s1 : CpuState :=
      if s.cpsr.thumb then
        let sa : CpuState := { s with
          bank := Function.update s.bank Bank.irq
            { s.bank Bank.irq with s14 := s.regs.r15 },
          spsr := Function.update s.spsr Bank.irq s.cpsr }
        let sb := switchMode sa Mode.irq
        { sb with cpsr := { sb.cpsr with thumb := false, mask_irq := true } }
      else
        let sa : CpuState := { s with
          bank := Function.update s.bank Bank.irq
            { s.bank Bank.irq with s14 := (s.regs.r15 + (2 ^ 32 - 4)) % 2 ^ 32 },
          spsr := Function.update s.spsr Bank.irq s.cpsr }
        let sb := switchMode sa Mode.irq
        { sb with cpsr := { sb.cpsr with mask_irq := true } }
    let s2 : CpuState := { s1 with regs := { s1.regs with r15 := 0x18 } }
    refillA readWord s2

/-- The outcome of one dispatch step (`ARM7::Run`), stopping where
control passes to an externally supplied opcode handler: either a Thumb
handler invocation (table index and raw instruction, with the state the
handler receives), an ARM handler invocation (12-bit hash, instruction,
state), or the ARM predicated no-op path that invoked no handler. -/
inductive Dispatch where
  | thumbHandler (index : Nat) (instr : Nat) (s : CpuState)
  | armHandler (hash : Nat) (instr : Nat) (s : CpuState)
  | skipped (s : CpuState)

/-- The `static_cast<Condition>` of the instruction's top 4 bits, with the
canonical encoding 0=EQ..15=NV named by the spec's ARM truth table. -/
def condOfBits : Nat → Condition
  | 0 => Condition.eq
  | 1 => Condition.ne
  | 2 => Condition.cs
  | 3 => Condition.cc
  | 4 => Condition.mi
  | 5 => Condition.pl
  | 6 => Condition.vs
  | 7 => Condition.vc
  | 8 => Condition.hi
  | 9 => Condition.ls
  | 10 => Condition.ge
  | 11 => Condition.lt
  | 12 => Condition.gt
  | 13 => Condition.le
  | 14 => Condition.al
  | _ => Condition.nv

/-- `ARM7::Run` (debugger hook compiled out): take pipeline slot 0 as the
current instruction, align `r15` to the current width, shift slot 1 into
slot 0 and prefetch a new slot 1 sequentially at `r15`; in Thumb invoke
`thumb_lut[instruction >> 6]` unconditionally, in ARM evaluate the
condition in bits 31..28 and either invoke `arm_lut[hash]` with
`hash = ((instruction >> 16) & 0xFF0) | ((instruction >> 4) & 0xF)` or
advance `r15` by 4.  Clearing the low bit(s) of `r15` is written
`r15 - r15 % 2` (resp. `% 4`), which equals `r15 & ~1` (resp. `& ~3`). -/
def run (readWord readHalf : Nat → Access → Nat) (s : CpuState) : Dispatch :=
  let instruction := s.pipe0
  if s.cpsr.thumb then
    let r15a := s.regs.r15 - s.regs.r15 % 2
    let s1 : CpuState := { s with
      regs := { s.regs with r15 := r15a },
      pipe0 := s.pipe1,
      pipe1 := readHalf r15a Access.seq }
    Dispatch.thumbHandler (instruction >>> 6) instruction s1
  else
    let r15a := s.regs.r15 - s.regs.r15 % 4
    let s1 : CpuState := { s with
      regs := { s.regs with r15 := r15a },
      pipe0 := s.pipe1,
      pipe1 := readWord r15a Access.seq }
    if checkCondition (condOfBits (instruction >>> 28)) s1.cpsr then
      let hash := ((instruction >>> 16) &&& 0xFF0) ||| ((instruction >>> 4) &&& 0xF)
      Dispatch.armHandler hash instruction s1
    else
      Dispatch.skipped
        { s1 with regs := { s1.regs with r15 := (s1.regs.r15 + 4) % 2 ^ 32 } }

/-- Writing values into the active `r8..r12`, as an opcode handler running
in the current mode would. -/
def writeFiqGprs (s : CpuState) (a8 a9 a10 a11 a12 : Nat) : CpuState :=
  { s with regs :=
      { s.regs with r8 := a8, r9 := a9, r10 := a10, r11 := a11, r12 := a12 } }

/-- The decode-table index a dispatch outcome would use: the Thumb table
index, the ARM 12-bit hash, or 0 for the predicated no-op path. -/
def dispatchIndex : Dispatch → Nat
  | Dispatch.thumbHandler index _ _ => index
  | Dispatch.armHandler hash _ _ => hash
  | Dispatch.skipped _ => 0

/-- A concrete bus returning the address it was asked for, so fetched
values are distinguishable in tests. -/
def bus0 : Nat → Access → Nat := fun a _ => a

/-- A concrete register file with distinct values, `r15 = 100`. -/
def regs0 : Regs := ⟨0, 1, 2, 3, 4, 5, 6, 7, 8, 9, 10, 11, 12, 13, 14, 100⟩

/-- An all-zero bank row. -/
def row0 : BankRow := ⟨0, 0, 0, 0, 0, 0, 0⟩

/-- A status register in system mode, ARM width, interrupts enabled. -/
def psrSys : Psr := ⟨false, false, false, false, false, false, Mode.sys⟩

/-- A concrete base state used by the witness theorems: system mode, ARM
width, interrupts enabled, zeroed banks, a never-condition word in
pipeline slot 0. -/
def baseState : CpuState :=
  { regs := regs0, bank := fun _ => row0, spsr := fun _ => psrSys,
    p_spsr := Bank.none, cpsr := psrSys, pipe0 := 0xF0000000, pipe1 := 7 }

/-- `baseState` with the interrupt mask already set. -/
def maskedState : CpuState :=
  { baseState with cpsr := { psrSys with mask_irq := true } }

/-- `baseState` moved to fast-interrupt mode. -/
def fiqState : CpuState :=
  { baseState with cpsr := { psrSys with mode := Mode.fiq } }

/-- `baseState` in Thumb width with instruction halfword `0x0040` in
pipeline slot 0. -/
def thumbState : CpuState :=
  { baseState with cpsr := { psrSys with thumb := true }, pipe0 := 0x0040 }

/-- `baseState` with the saved-status pointer aimed at the IRQ bank, so a
repointing (or its absence) is observable. -/
def spsrIrqState : CpuState :=
  { baseState with p_spsr := Bank.irq }

/-- `baseState` in unprivileged mode. -/
def usrState : CpuState :=
  { baseState with cpsr := { psrSys with mode := Mode.usr } }

/-- C1: for every condition code and every flag combination (and any values
of the remaining status fields), `CheckCondition` agrees with the canonical
ARM condition truth table; `always` is true and `never` is false regardless
of the flags.  Totality and purity are inherent: `checkCondition` is a
total Lean function. -/
theorem checkCondition_matches_truth_table
    (cond : Condition) (n z c v mi th : Bool) (mo : Mode) :
    checkCondition cond ⟨n, z, c, v, mi, th, mo⟩ = condTable cond n z c v := by
  cases cond <;> cases n <;> cases z <;> cases c <;> cases v <;> rfl

/-- C2: from any state with the interrupt mask clear (and the program
counter a 32-bit value at least 4, so that the ARM-case return address
`r15 - 4` is an ordinary subtraction), `SignalIrq` sets the mask, clears
the Thumb flag, sets the mode to IRQ, stores the return address (`r15`
pre-call if Thumb, `r15 - 4` if ARM) into the IRQ bank's `r14` slot,
redirects the program counter to the vector `0x18` and performs an
ARM-width refill: slot 0 is the non-sequential word read at `0x18`,
slot 1 the sequential word read at `0x1C`, and `r15` ends at `0x20`. -/
theorem signalIrq_entry (rw : Nat → Access → Nat) (s : CpuState)
    (h : s.cpsr.mask_irq = false) (h4 : 4 ≤ s.regs.r15)
    (h32 : s.regs.r15 < 2 ^ 32) :
    (signalIrq rw s).cpsr.mask_irq = true ∧
    (signalIrq rw s).cpsr.thumb = false ∧
    (signalIrq rw s).cpsr.mode = Mode.irq ∧
    ((signalIrq rw s).bank Bank.irq).s14 =
      (if s.cpsr.thumb then s.regs.r15 else s.regs.r15 - 4) ∧
    (signalIrq rw s).regs.r15 = 0x20 ∧
    (signalIrq rw s).pipe0 = rw 0x18 Access.nseq ∧
    (signalIrq rw s).pipe1 = rw 0x1C Access.seq := by
  cases ht : s.cpsr.thumb <;> cases hm : s.cpsr.mode <;>
    simp [signalIrq, switchMode, refillA, modeToBank, Function.update,
          h, ht, hm] <;>
    omega

/-- Witness for C2 at the concrete `baseState` (ARM width, system mode,
`r15 = 100`). -/
theorem signalIrq_entry_witness :
    (signalIrq bus0 baseState).cpsr.mask_irq = true ∧
    (signalIrq bus0 baseState).cpsr.thumb = false ∧
    (signalIrq bus0 baseState).cpsr.mode = Mode.irq ∧
    ((signalIrq bus0 baseState).bank Bank.irq).s14 =
      (if baseState.cpsr.thumb then baseState.regs.r15
       else baseState.regs.r15 - 4) ∧
    (signalIrq bus0 baseState).regs.r15 = 0x20 ∧
    (signalIrq bus0 baseState).pipe0 = bus0 0x18 Access.nseq ∧
    (signalIrq bus0 baseState).pipe1 = bus0 0x1C Access.seq :=
  signalIrq_entry bus0 baseState (by decide) (by decide) (by decide)

/-- C3: with the interrupt mask set, `SignalIrq` is a complete no-op: the
whole state is returned unchanged, and since the result is the same for
every bus function `rw`, no bus access can have been observed. -/
theorem signalIrq_masked_noop (rw : Nat → Access → Nat) (s : CpuState)
    (h : s.cpsr.mask_irq = true) : signalIrq rw s = s := by
  simp [signalIrq, h]

/-- Witness for C3 at the concrete `maskedState`. -/
theorem signalIrq_masked_noop_witness :
    signalIrq bus0 maskedState = maskedState :=
  signalIrq_masked_noop bus0 maskedState rfl

/-- C4: from any state in mode `a`, switching to a different mode `b` and
back restores `r13` and `r14` exactly, and when `a` or `b` is the
fast-interrupt mode also `r8..r12`. -/
theorem switchMode_roundtrip (s : CpuState) (a b : Mode)
    (hs : s.cpsr.mode = a) (hab : a ≠ b) :
    (switchMode (switchMode s b) a).regs.r13 = s.regs.r13 ∧
    (switchMode (switchMode s b) a).regs.r14 = s.regs.r14 ∧
    (a = Mode.fiq ∨ b = Mode.fiq →
      (switchMode (switchMode s b) a).regs.r8 = s.regs.r8 ∧
      (switchMode (switchMode s b) a).regs.r9 = s.regs.r9 ∧
      (switchMode (switchMode s b) a).regs.r10 = s.regs.r10 ∧
      (switchMode (switchMode s b) a).regs.r11 = s.regs.r11 ∧
      (switchMode (switchMode s b) a).regs.r12 = s.regs.r12) := by
  subst hs
  cases hm : s.cpsr.mode <;> cases b <;>
    simp_all [switchMode, modeToBank, Function.update]

/-- Witness for C4: round trip fast-interrupt → unprivileged →
fast-interrupt at the concrete `fiqState`. -/
theorem switchMode_roundtrip_witness :
    (switchMode (switchMode fiqState Mode.usr) Mode.fiq).regs.r13 =
      fiqState.regs.r13 ∧
    (switchMode (switchMode fiqState Mode.usr) Mode.fiq).regs.r14 =
      fiqState.regs.r14 ∧
    (Mode.fiq = Mode.fiq ∨ Mode.usr = Mode.fiq →
      (switchMode (switchMode fiqState Mode.usr) Mode.fiq).regs.r8 =
        fiqState.regs.r8 ∧
      (switchMode (switchMode fiqState Mode.usr) Mode.fiq).regs.r9 =
        fiqState.regs.r9 ∧
      (switchMode (switchMode fiqState Mode.usr) Mode.fiq).regs.r10 =
        fiqState.regs.r10 ∧
      (switchMode (switchMode fiqState Mode.usr) Mode.fiq).regs.r11 =
        fiqState.regs.r11 ∧
      (switchMode (switchMode fiqState Mode.usr) Mode.fiq).regs.r12 =
        fiqState.regs.r12) :=
  switchMode_roundtrip fiqState Mode.fiq Mode.usr (by decide) (by decide)

/-- C5: starting in any non-FIQ mode, switching into fast-interrupt mode,
writing any values into `r8..r12`, and switching to any other non-FIQ
mode leaves that mode's view of `r8..r12` equal to the pre-FIQ values;
switching back into fast-interrupt mode makes the written values visible
again. -/
theorem fiq_bank_isolation (s : CpuState) (m' : Mode)
    (a8 a9 a10 a11 a12 : Nat)
    (hm : s.cpsr.mode ≠ Mode.fiq) (hm' : m' ≠ Mode.fiq) :
    (switchMode (writeFiqGprs (switchMode s Mode.fiq) a8 a9 a10 a11 a12) m').regs.r8 = s.regs.r8 ∧
    (switchMode (writeFiqGprs (switchMode s Mode.fiq) a8 a9 a10 a11 a12) m').regs.r9 = s.regs.r9 ∧
    (switchMode (writeFiqGprs (switchMode s Mode.fiq) a8 a9 a10 a11 a12) m').regs.r10 = s.regs.r10 ∧
    (switchMode (writeFiqGprs (switchMode s Mode.fiq) a8 a9 a10 a11 a12) m').regs.r11 = s.regs.r11 ∧
    (switchMode (writeFiqGprs (switchMode s Mode.fiq) a8 a9 a10 a11 a12) m').regs.r12 = s.regs.r12 ∧
    (switchMode (switchMode (writeFiqGprs (switchMode s Mode.fiq) a8 a9 a10 a11 a12) m') Mode.fiq).regs.r8 = a8 ∧
    (switchMode (switchMode (writeFiqGprs (switchMode s Mode.fiq) a8 a9 a10 a11 a12) m') Mode.fiq).regs.r9 = a9 ∧
    (switchMode (switchMode (writeFiqGprs (switchMode s Mode.fiq) a8 a9 a10 a11 a12) m') Mode.fiq).regs.r10 = a10 ∧
    (switchMode (switchMode (writeFiqGprs (switchMode s Mode.fiq) a8 a9 a10 a11 a12) m') Mode.fiq).regs.r11 = a11 ∧
    (switchMode (switchMode (writeFiqGprs (switchMode s Mode.fiq) a8 a9 a10 a11 a12) m') Mode.fiq).regs.r12 = a12 := by
  cases hmode : s.cpsr.mode <;> cases m' <;>
    simp_all [switchMode, writeFiqGprs, modeToBank, Function.update]

/-- Witness for C5 at the concrete `baseState` (system mode), exiting to
supervisor mode with written values 100..104. -/
theorem fiq_bank_isolation_witness :
    (switchMode (writeFiqGprs (switchMode baseState Mode.fiq) 100 101 102 103 104) Mode.svc).regs.r8 = baseState.regs.r8 ∧
    (switchMode (writeFiqGprs (switchMode baseState Mode.fiq) 100 101 102 103 104) Mode.svc).regs.r9 = baseState.regs.r9 ∧
    (switchMode (writeFiqGprs (switchMode baseState Mode.fiq) 100 101 102 103 104) Mode.svc).regs.r10 = baseState.regs.r10 ∧
    (switchMode (writeFiqGprs (switchMode baseState Mode.fiq) 100 101 102 103 104) Mode.svc).regs.r11 = baseState.regs.r11 ∧
    (switchMode (writeFiqGprs (switchMode baseState Mode.fiq) 100 101 102 103 104) Mode.svc).regs.r12 = baseState.regs.r12 ∧
    (switchMode (switchMode (writeFiqGprs (switchMode baseState Mode.fiq) 100 101 102 103 104) Mode.svc) Mode.fiq).regs.r8 = 100 ∧
    (switchMode (switchMode (writeFiqGprs (switchMode baseState Mode.fiq) 100 101 102 103 104) Mode.svc) Mode.fiq).regs.r9 = 101 ∧
    (switchMode (switchMode (writeFiqGprs (switchMode baseState Mode.fiq) 100 101 102 103 104) Mode.svc) Mode.fiq).regs.r10 = 102 ∧
    (switchMode (switchMode (writeFiqGprs (switchMode baseState Mode.fiq) 100 101 102 103 104) Mode.svc) Mode.fiq).regs.r11 = 103 ∧
    (switchMode (switchMode (writeFiqGprs (switchMode baseState Mode.fiq) 100 101 102 103 104) Mode.svc) Mode.fiq).regs.r12 = 104 :=
  fiq_bank_isolation baseState Mode.svc 100 101 102 103 104 (by decide) (by decide)

/-- C6: an ARM-width dispatch step whose condition (the top 4 bits of the
current instruction) evaluates false invokes no handler and only advances
the program counter by exactly 4 and shifts the pipeline; `r0..r14`, all
flag fields, banks and saved-status slots are unchanged.  The hypotheses
are the spec's ARM-mode invariants: `r15` word-aligned and a 32-bit value
that does not wrap when advanced. -/
theorem run_arm_cond_false_skips (rw rh : Nat → Access → Nat) (s : CpuState)
    (ht : s.cpsr.thumb = false)
    (hc : checkCondition (condOfBits (s.pipe0 >>> 28)) s.cpsr = false)
    (hal : s.regs.r15 % 4 = 0) (hlt : s.regs.r15 + 4 < 2 ^ 32) :
    run rw rh s = Dispatch.skipped
      { s with regs := { s.regs with r15 := s.regs.r15 + 4 },
               pipe0 := s.pipe1,
               pipe1 := rw s.regs.r15 Access.seq } := by
  have e1 : s.regs.r15 - s.regs.r15 % 4 = s.regs.r15 := by omega
  have e2 : (s.regs.r15 + 4) % 2 ^ 32 = s.regs.r15 + 4 := by omega
  simp [run, ht, hc, e1, e2]
  omega

/-- Witness for C6 at the concrete `baseState`, whose pipeline slot 0
holds `0xF0000000` (condition NV, always false). -/
theorem run_arm_cond_false_skips_witness :
    run bus0 bus0 baseState = Dispatch.skipped
      { baseState with
          regs := { baseState.regs with r15 := baseState.regs.r15 + 4 },
          pipe0 := baseState.pipe1,
          pipe1 := bus0 baseState.regs.r15 Access.seq } :=
  run_arm_cond_false_skips bus0 bus0 baseState (by decide) (by decide)
    (by decide) (by decide)

/-- C7 (amended): a Thumb-width dispatch step unconditionally invokes the
Thumb-table handler indexed by `instruction >> 6` — bits 15..6 of the
halfword, a 10-bit index — not bits 15..10; no condition is evaluated
(the outcome is a handler invocation for every flag combination). -/
theorem run_thumb_dispatch (rw rh : Nat → Access → Nat) (s : CpuState)
    (ht : s.cpsr.thumb = true) :
    run rw rh s = Dispatch.thumbHandler (s.pipe0 >>> 6) s.pipe0
      { s with regs := { s.regs with r15 := s.regs.r15 - s.regs.r15 % 2 },
               pipe0 := s.pipe1,
               pipe1 := rh (s.regs.r15 - s.regs.r15 % 2) Access.seq } := by
  simp [run, ht]

/-- Witness for C7's amended theorem at the concrete `thumbState`. -/
theorem run_thumb_dispatch_witness :
    run bus0 bus0 thumbState =
      Dispatch.thumbHandler (thumbState.pipe0 >>> 6) thumbState.pipe0
        { thumbState with
            regs := { thumbState.regs with
                        r15 := thumbState.regs.r15 - thumbState.regs.r15 % 2 },
            pipe0 := thumbState.pipe1,
            pipe1 := bus0 (thumbState.regs.r15 - thumbState.regs.r15 % 2)
                       Access.seq } :=
  run_thumb_dispatch bus0 bus0 thumbState (by decide)

/-- Counterexample to C7 as stated: at `thumbState` (halfword `0x0040` in
slot 0) the invoked table index is `0x0040 >> 6 = 1`, whereas bits 15..10
of the instruction give `0x0040 >> 10 = 0`, so the index is not given by
bits 15..10. -/
theorem run_thumb_index_cex :
    dispatchIndex (run bus0 bus0 thumbState) = 1 ∧
    thumbState.pipe0 >>> 10 = 0 ∧
    dispatchIndex (run bus0 bus0 thumbState) ≠ thumbState.pipe0 >>> 10 := by
  refine ⟨rfl, rfl, ?_⟩
  decide

/-- C8 (amended): for a call `SwitchMode(b)` where `b` resolves to a
different register bank than the current mode (which excludes only the
unprivileged ↔ system pair among distinct modes), the current `r13`/`r14`
are saved into the old mode's bank slots, `r13`/`r14` are loaded from the
new mode's bank slots, and the saved-status pointer is repointed to the
new bank. -/
theorem switchMode_bank_transfer (s : CpuState) (b : Mode)
    (hb : modeToBank b ≠ modeToBank s.cpsr.mode) :
    ((switchMode s b).bank (modeToBank s.cpsr.mode)).s13 = s.regs.r13 ∧
    ((switchMode s b).bank (modeToBank s.cpsr.mode)).s14 = s.regs.r14 ∧
    (switchMode s b).regs.r13 = (s.bank (modeToBank b)).s13 ∧
    (switchMode s b).regs.r14 = (s.bank (modeToBank b)).s14 ∧
    (switchMode s b).p_spsr = modeToBank b := by
  cases hm : s.cpsr.mode <;> cases b <;>
    simp_all [switchMode, modeToBank, Function.update]

/-- Witness for C8's amended theorem: system mode → interrupt mode at the
concrete `baseState`. -/
theorem switchMode_bank_transfer_witness :
    ((switchMode baseState Mode.irq).bank (modeToBank baseState.cpsr.mode)).s13 =
      baseState.regs.r13 ∧
    ((switchMode baseState Mode.irq).bank (modeToBank baseState.cpsr.mode)).s14 =
      baseState.regs.r14 ∧
    (switchMode baseState Mode.irq).regs.r13 =
      (baseState.bank (modeToBank Mode.irq)).s13 ∧
    (switchMode baseState Mode.irq).regs.r14 =
      (baseState.bank (modeToBank Mode.irq)).s14 ∧
    (switchMode baseState Mode.irq).p_spsr = modeToBank Mode.irq :=
  switchMode_bank_transfer baseState Mode.irq (by decide)

/-- Counterexample to C8 as stated: at `spsrIrqState` (system mode,
`r13 = 13`, `r14 = 14`, zeroed banks, saved-status pointer at the IRQ
bank), the call `SwitchMode(usr)` — a mode different from the active one —
leaves the shared bank's `r13`/`r14` slots at 0 instead of saving 13/14,
loads nothing (r13 stays 13, not the bank's 0), and leaves the
saved-status pointer at the IRQ bank instead of repointing it to the new
mode's bank. -/
theorem switchMode_unconditional_save_cex :
    spsrIrqState.cpsr.mode = Mode.sys ∧
    Mode.usr ≠ Mode.sys ∧
    spsrIrqState.regs.r13 = 13 ∧
    spsrIrqState.regs.r14 = 14 ∧
    ((switchMode spsrIrqState Mode.usr).bank Bank.none).s13 = 0 ∧
    ((switchMode spsrIrqState Mode.usr).bank Bank.none).s14 = 0 ∧
    (switchMode spsrIrqState Mode.usr).regs.r13 = 13 ∧
    (spsrIrqState.bank (modeToBank Mode.usr)).s13 = 0 ∧
    (switchMode spsrIrqState Mode.usr).p_spsr = Bank.irq ∧
    modeToBank Mode.usr = Bank.none ∧
    Bank.irq ≠ Bank.none := by
  decide

/-- C9: a `SwitchMode` call between the unprivileged and system modes (in
either direction) changes only the mode field of the status register: the
whole state is otherwise untouched, including all registers, bank
storage, saved-status slots and the saved-status pointer. -/
theorem switchMode_shared_bank_mode_only (s : CpuState) (b : Mode)
    (h : (s.cpsr.mode = Mode.usr ∧ b = Mode.sys) ∨
         (s.cpsr.mode = Mode.sys ∧ b = Mode.usr)) :
    switchMode s b = { s with cpsr := { s.cpsr with mode := b } } := by
  rcases h with ⟨h1, h2⟩ | ⟨h1, h2⟩ <;> subst h2 <;>
    simp [switchMode, modeToBank, h1]

/-- Witness for C9 at the concrete `usrState`. -/
theorem switchMode_shared_bank_mode_only_witness :
    switchMode usrState Mode.sys =
      { usrState with cpsr := { usrState.cpsr with mode := Mode.sys } } :=
  switchMode_shared_bank_mode_only usrState Mode.sys (Or.inl ⟨rfl, rfl⟩)

/-- C10: after `SignalIrq` from a state with the mask clear and the mode
not already IRQ (and `r15` a 32-bit value at least 4), the visible link
register `r14` equals the computed return address, because the mode
switch loads `r14` from the IRQ bank slot written just before it. -/
theorem signalIrq_visible_r14 (rw : Nat → Access → Nat) (s : CpuState)
    (h : s.cpsr.mask_irq = false) (hm : s.cpsr.mode ≠ Mode.irq)
    (h4 : 4 ≤ s.regs.r15) (h32 : s.regs.r15 < 2 ^ 32) :
    (signalIrq rw s).regs.r14 =
      (if s.cpsr.thumb then s.regs.r15 else s.regs.r15 - 4) := by
  cases ht : s.cpsr.thumb <;> cases hmode : s.cpsr.mode <;>
    first
      | exact (hm hmode).elim
      | (simp [signalIrq, switchMode, refillA, modeToBank, Function.update,
               h, ht, hmode] <;> omega)

/-- Witness for C10 at the concrete `baseState` (ARM width, system mode,
`r15 = 100`): the visible `r14` becomes 96. -/
theorem signalIrq_visible_r14_witness :
    (signalIrq bus0 baseState).regs.r14 =
      (if baseState.cpsr.thumb then baseState.regs.r15
       else baseState.regs.r15 - 4) :=
  signalIrq_visible_r14 bus0 baseState (by decide) (by decide) (by decide)
    (by decide)
